import Mathlib

/-!
Shallow embedding of the django-simple-appointments core: the appointment
data model, the conflict-detection query, the cohesion validators, the
derived-field calculators, the form validation pipeline and the relation-row
save paths, translated from `src/appointments/utils.py`,
`src/appointments/models.py`, `src/appointments/mixin_forms.py` and
`src/activities/models.py`.

Conventions: wall-clock times are natural numbers of minutes since midnight
(a day has 1440 minutes), dates and entity identifiers are natural numbers,
and decimal prices are integers (exact decimal sums translate to exact
integer sums). Fallible operations return `Option String` (the violation
message) or `Except String`.
-/

/-- Minutes in a day; `datetime.combine(date.min, t) + timedelta` followed by
`.time()` yields the sum of minutes reduced modulo this constant. -/
def dayMinutes : Nat := 1440

/-- One row of the activities table (`activities/models.py`, class `Activity`):
a price and a duration (in minutes).  The model defines no `save`/`clean`
overrides and no signal hooks. -/
structure Activity where
  id : Nat
  price : Int
  duration_time : Nat
deriving Repr, DecidableEq

/-- One appointment row (`appointments/models.py`, class `Appointment`).
`pk` is `none` before the row is first persisted.  `end_time` is `none` when
not yet supplied ("not yet computed").  `providers` is the denormalised view
of the `AppointmentProvider` relation rows for this appointment.
The `prevents_overlap` field is absent from the `models.py` snapshot in `src/`
but is a model field in the rest of the repository (it is listed in the
`AppointmentAdminForm` field list in `forms.py`, filtered on in
`mixin_forms.py` and set throughout `tests.py`); it is carried here so the
form-path conflict scope can be stated. -/
structure Appointment where
  pk : Option Nat := none
  status : String := "pending"
  price : Int := 0
  auto_price : Bool := true
  is_blocked : Bool := false
  prevents_overlap : Bool := true
  date : Nat
  start_time : Nat
  end_time : Option Nat := none
  auto_end_time : Bool := true
  providers : List Nat := []
  recipients : List Nat := []
deriving Repr, DecidableEq

/-- The text of the schedule-conflict message built in
`validate_appointments_conflicts` (`utils.py` lines 16-20). -/
def conflictMessage (provider : Nat) (d : Nat) (s e cs ce : Nat) : String :=
  "Schedule conflict for provider " ++ toString provider ++ " on " ++ toString d ++
  " between " ++ toString s ++ " and " ++ toString e ++
  ". Conflicts with existing appointment from " ++ toString cs ++ " to " ++ toString ce ++ "."

/-- The row filter of the conflict query in `utils.py` lines 7-12:
`date=instance.date, start_time__lt=instance.end_time,
end_time__gt=instance.start_time, providers__in=[provider]` with
`.exclude(pk=instance.pk)`.  A stored row with a SQL-null `end_time` never
matches an `end_time__gt` comparison (the column is declared `null=False`, so
this arm is unreachable for persisted rows). -/
def conflictsRowFilter (cand : Appointment) (candEnd : Nat) (provider : Nat)
    (e : Appointment) : Bool :=
  e.date == cand.date &&
  decide (e.start_time < candEnd) &&
  (match e.end_time with
   | some ee => decide (cand.start_time < ee)
   | none => false) &&
  e.providers.contains provider &&
  e.pk != cand.pk

/-- `validate_appointments_conflicts(instance, provider)` from
`appointments/utils.py` lines 5-21, with the `Appointment.objects` table made
an explicit argument `db`.  Returns the formatted message for the first
matching row, or `none`.  A candidate whose `end_time` is still `none` would
fault in the source when the ORM compares it (callers establish a value
first); that arm returns `none` here and is never exercised by the callers
modelled below. -/
def validate_appointments_conflicts (db : List Appointment) (cand : Appointment)
    (provider : Nat) : Option String :=
  match cand.end_time with
  | none => none
  | some candEnd =>
    match (db.filter (conflictsRowFilter cand candEnd provider)).head? with
    | none => none
    | some c =>
      some (conflictMessage provider cand.date cand.start_time candEnd
        c.start_time (c.end_time.getD c.start_time))

/-- `validate_time_cohesion(start_time, end_time)` from
`appointments/utils.py` lines 24-29: no check when `end_time` is null, a
violation only when `start_time > end_time` (strictly). -/
def validate_time_cohesion (start_time : Nat) (end_time : Option Nat) : Option String :=
  match end_time with
  | none => none
  | some e =>
    if start_time > e then
      some ("The start time (" ++ toString start_time ++
        ") must be earlier than the end time (" ++ toString e ++ ").")
    else none

/-- The first lines of `Appointment.clean` (`models.py` lines 45-46): a null
`end_time` is replaced by `start_time` before any validation. -/
def fixEndTime (i : Appointment) : Appointment :=
  if i.end_time.isNone then { i with end_time := some i.start_time } else i

/-- The provider loop of `Appointment.clean` (`models.py` lines 55-59):
the conflict check runs once per linked provider and the first message raises. -/
def firstProviderConflict (db : List Appointment) (i : Appointment) :
    List Nat → Option String
  | [] => none
  | p :: rest =>
    match validate_appointments_conflicts db i p with
    | some m => some m
    | none => firstProviderConflict db i rest

/-- `Appointment.clean` (`models.py` lines 42-59): fill a null `end_time`,
check time cohesion, and only when the instance already has a primary key run
the conflict check over its providers. -/
def appointmentClean (db : List Appointment) (i0 : Appointment) : Option String :=
  let i := fixEndTime i0
  match validate_time_cohesion i.start_time i.end_time with
  | some m => some m
  | none =>
    if i.pk.isNone then none
    else firstProviderConflict db i i.providers

/-- `Appointment.save` (`models.py` lines 61-63): `full_clean` (which runs
`clean`) and then the row write; the persisted row carries the `end_time`
that `clean` filled in. -/
def appointmentSave (db : List Appointment) (i : Appointment) : Except String Appointment :=
  match appointmentClean db i with
  | some m => Except.error m
  | none => Except.ok (fixEndTime i)

/-- `AppointmentProvider.save` (`models.py` lines 66-83): `full_clean` runs
`clean`, which is only the conflict check for this appointment/provider pair;
on success the relation row is appended.  The class declares no uniqueness
constraint over (appointment, provider), so nothing inspects `rows` for a
duplicate pair. -/
def appointmentProviderSave (db : List Appointment) (rows : List (Option Nat × Nat))
    (a : Appointment) (p : Nat) : Except String (List (Option Nat × Nat)) :=
  match validate_appointments_conflicts db a p with
  | some m => Except.error m
  | none => Except.ok (rows ++ [(a.pk, p)])

/-- The state an appointment's activity links act on: the appointment row, the
activities table, and the `AppointmentActivities` relation rows for this
appointment (as the linked activity ids, in insertion order). -/
structure ApptWorld where
  appointment : Appointment
  activities : List Activity
  links : List Nat
deriving Repr, DecidableEq

/-- `instance.activities.all()`: the linked activities resolved through the
relation rows against the current activities table. -/
def linkedActivities (w : ApptWorld) : List Activity :=
  w.links.filterMap (fun i => w.activities.find? (fun a => a.id == i))

/-- `set_price(instance)` from `appointments/utils.py` lines 32-38: when
`auto_price` is set, overwrite `price` with the sum of the linked activities'
prices (the sum of the empty list is 0). -/
def set_price (w : ApptWorld) : ApptWorld :=
  if !w.appointment.auto_price then w
  else { w with appointment :=
    { w.appointment with price := ((linkedActivities w).map Activity.price).sum } }

/-- `set_end_time(instance)` from `appointments/utils.py` lines 41-51: when
`auto_end_time` is set, overwrite `end_time` with `start_time` plus the sum of
the linked activities' durations, as a time of day (reduced modulo one day by
the `datetime` round-trip). -/
def set_end_time (w : ApptWorld) : ApptWorld :=
  if !w.appointment.auto_end_time then w
  else
    let total := ((linkedActivities w).map Activity.duration_time).sum
    { w with appointment :=
      { w.appointment with end_time := some ((w.appointment.start_time + total) % dayMinutes) } }

/-- `AppointmentActivities.save` (`models.py` lines 93-103): the relation row
is inserted first, then `set_price` and `set_end_time` recompute the owning
appointment's derived fields from the now-current link set. -/
def appointmentActivitiesSave (w : ApptWorld) (actId : Nat) : ApptWorld :=
  set_end_time (set_price { w with links := w.links ++ [actId] })

/-- `Activity.save` (`activities/models.py`): the activity row is replaced in
the table; the model defines no override and no signal re-runs the derived
field computation of any appointment. -/
def activitySave (w : ApptWorld) (a : Activity) : ApptWorld :=
  { w with activities := w.activities.map (fun b => if b.id == a.id then a else b) }

/-- The mutable validation context the form mixins act on
(`mixin_forms.py`): the cleaned form data, the bound instance's primary key,
the stored appointments the conflict queryset draws from, and the `(field,
message)` error list that `form.add_error` appends to.  The `activities`
entry is `none` when `cleaned_data.get("activities")` yields no value. -/
structure FormState where
  date : Nat
  start_time : Nat
  end_time : Option Nat
  price : Int
  auto_price : Bool
  auto_end_time : Bool
  is_blocked : Bool
  prevents_overlap : Bool
  providers : List Nat
  activities : Option (List Activity)
  instance_pk : Option Nat
  db : List Appointment
  errors : List (String × String)
deriving Repr, DecidableEq

/-- `form.add_error(field, message)`. -/
def addError (f : FormState) (field msg : String) : FormState :=
  { f with errors := f.errors ++ [(field, msg)] }

/-- `TimeValidationMixin.validate_time` (`mixin_forms.py` lines 10-18):
run `validate_time_cohesion` on the cleaned times and attach any violation to
`start_time`. -/
def validate_time (f : FormState) : FormState :=
  match validate_time_cohesion f.start_time f.end_time with
  | some m => addError f "start_time" m
  | none => f

/-- Modelled from the spec: `validate_blocked_cohesion`, which
`mixin_forms.py` imports from `appointments/utils.py`, is absent from the
`utils.py` snapshot in `src/` (only its caller `BlockedValidationMixin` and
the tests that assert its message are present).  Body follows spec section
4.4, invariant I2, with the literal message the spec and `tests.py` give. -/
def validate_blocked_cohesion (is_blocked : Bool) (prevents_overlap : Bool) : Option String :=
  if is_blocked && !prevents_overlap then
    some "An appointment cannot be marked as blocked while allowing overlaps. Set 'prevents_overlap=True' when 'is_blocked=True'."
  else none

/-- `BlockedValidationMixin.validate_blocked` (`mixin_forms.py` lines 21-29):
run `validate_blocked_cohesion` and attach any violation to `is_blocked`. -/
def validate_blocked (f : FormState) : FormState :=
  match validate_blocked_cohesion f.is_blocked f.prevents_overlap with
  | some m => addError f "is_blocked" m
  | none => f

/-- `AutoEndTimeMixin.set_end_time` (`mixin_forms.py` lines 64-84): when
`auto_end_time` is off or no activities value is present, only backfill a null
`end_time` with `start_time`; otherwise overwrite `end_time` with
`start_time` plus the summed durations, as a time of day. -/
def auto_end_time_step (f : FormState) : FormState :=
  match f.activities with
  | none => if f.end_time.isNone then { f with end_time := some f.start_time } else f
  | some acts =>
    if !f.auto_end_time then
      (if f.end_time.isNone then { f with end_time := some f.start_time } else f)
    else
      { f with end_time := some ((f.start_time + (acts.map Activity.duration_time).sum) % dayMinutes) }

/-- `AutoPriceMixin.set_price` (`mixin_forms.py` lines 87-96): when
`auto_price` is on and an activities value is present, overwrite `price` with
the summed activity prices. -/
def auto_price_step (f : FormState) : FormState :=
  match f.activities with
  | none => f
  | some acts =>
    if !f.auto_price then f
    else { f with price := (acts.map Activity.price).sum }

/-- `ConflictValidationMixin._get_queryset` (`mixin_forms.py` lines 46-53):
the stored appointments with `prevents_overlap=True`, the cleaned date, and a
time range overlapping the cleaned `[start_time, end_time)`; `candEnd` is the
cleaned `end_time` value.  As in the two-argument query, a SQL-null stored
`end_time` never matches `end_time__gt`. -/
def conflict_get_queryset (f : FormState) (candEnd : Nat) : List Appointment :=
  f.db.filter (fun b =>
    b.prevents_overlap &&
    b.date == f.date &&
    decide (b.start_time < candEnd) &&
    (match b.end_time with
     | some be => decide (f.start_time < be)
     | none => false))

/-- Modelled from the spec: the rows of the delivered queryset that the
three-argument `validate_appointments_conflicts` considers for one provider —
per spec section 4.2 the lookup is further "filtered to ... same provider,
excluding the candidate's own id". -/
def qsConsidered (qs : List Appointment) (f : FormState) (provider : Nat) : List Appointment :=
  qs.filter (fun b => b.providers.contains provider && b.pk != f.instance_pk)

/-- Modelled from the spec: the three-argument
`validate_appointments_conflicts(temp_instance, provider, queryset)` that
`ConflictValidationMixin.validate_conflicts` calls (`mixin_forms.py` line 38).
The `utils.py` snapshot in `src/` holds only an older two-argument variant
that ignores any queryset; per spec section 4.2 this variant restricts the
delivered queryset to the given provider, excludes the candidate's own id,
and reports the first remaining row. -/
def validate_appointments_conflicts_qs (qs : List Appointment) (f : FormState)
    (candEnd : Nat) (provider : Nat) : Option String :=
  match (qsConsidered qs f provider).head? with
  | none => none
  | some c =>
    some (conflictMessage provider f.date f.start_time candEnd
      c.start_time (c.end_time.getD c.start_time))

/-- The provider loop of `ConflictValidationMixin.validate_conflicts`
(`mixin_forms.py` lines 37-44): the first provider with a conflict message
attaches it to `start_time` and breaks. -/
def conflictProviderLoop (f : FormState) (qs : List Appointment) (candEnd : Nat) :
    List Nat → FormState
  | [] => f
  | p :: rest =>
    match validate_appointments_conflicts_qs qs f candEnd p with
    | some m => addError f "start_time" m
    | none => conflictProviderLoop f qs candEnd rest

/-- `ConflictValidationMixin.validate_conflicts` (`mixin_forms.py` lines
32-44).  A `none` cleaned `end_time` would fault in the source when the ORM
compares it; the pipeline's end-time step always leaves a value, so that arm
is unreachable there. -/
def validate_conflicts (f : FormState) : FormState :=
  match f.end_time with
  | none => f
  | some candEnd => conflictProviderLoop f (conflict_get_queryset f candEnd) candEnd f.providers

/-- The loop body of `AppointmentValidatorPipeline.run` (`mixin_forms.py`
lines 110-114): apply each step in turn and stop as soon as the form's error
list is non-empty. -/
def runSteps : List (FormState → FormState) → FormState → FormState
  | [], f => f
  | s :: rest, f =>
    let f1 := s f
    if f1.errors = [] then runSteps rest f1 else f1

/-- The step list of `AppointmentValidatorPipeline.__init__` (`mixin_forms.py`
lines 102-108). -/
def pipeline_steps : List (FormState → FormState) :=
  [validate_time, validate_blocked, auto_end_time_step, auto_price_step, validate_conflicts]

/-- `AppointmentValidatorPipeline.run` (`mixin_forms.py` lines 110-114). -/
def pipeline_run (f : FormState) : FormState :=
  runSteps pipeline_steps f

/-! ## Concrete fixtures -/

/-- The committed appointment of the boundary scenario: provider 7, date 5,
interval 14:00-15:00 as minutes `[840, 900)`. -/
def committedAppt : Appointment :=
  { pk := some 1, date := 5, start_time := 840, end_time := some 900,
    providers := [7], price := 70, auto_price := false, auto_end_time := false }

/-- A not-yet-persisted candidate for provider 7 on date 5 with the given
minute interval. -/
def candidate (s e : Nat) : Appointment :=
  { pk := none, date := 5, start_time := s, end_time := some e,
    providers := [7], price := 70, auto_price := false, auto_end_time := false }

/-- A world whose appointment (auto flags on, start 14:00) is linked to the
single activity priced 100 with a 90-minute duration. -/
def exampleLinkedWorld : ApptWorld where
  appointment :=
    { pk := some 1, date := 5, start_time := 840, end_time := some 900,
      price := 0, auto_price := true, auto_end_time := true }
  activities := [⟨1, 100, 90⟩]
  links := [1]

/-- A world with the activity priced 100 (duration 90 minutes) in the table
and no link rows yet; the appointment has the auto flags on and starts at
14:00. -/
def exampleFreezeWorld : ApptWorld where
  appointment :=
    { pk := some 1, date := 5, start_time := 840, end_time := none,
      price := 0, auto_price := true, auto_end_time := true }
  activities := [⟨1, 100, 90⟩]
  links := []

/-- A not-yet-persisted appointment with the auto flags on, caller-supplied
price 70 and times 14:00-15:00, and no linked activities at all. -/
def exampleNoActWorld : ApptWorld where
  appointment :=
    { pk := none, date := 5, start_time := 840, end_time := some 900,
      price := 70, auto_price := true, auto_end_time := true }
  activities := []
  links := []

/-- A blocked form that allows overlaps. -/
def exampleBlockedForm : FormState where
  date := 5
  start_time := 840
  end_time := some 900
  price := 70
  auto_price := false
  auto_end_time := false
  is_blocked := true
  prevents_overlap := false
  providers := [7]
  activities := none
  instance_pk := none
  db := []
  errors := []

/-- A persisted appointment (primary key 2) on date 5 with interval
`[840, 900)` for provider 7. -/
def persistedCand : Appointment :=
  { pk := some 2, date := 5, start_time := 840, end_time := some 900,
    providers := [7], price := 70, auto_price := false, auto_end_time := false }

/-- A stored table holding one appointment for provider 7 on date 5 over
`[840, 900)` whose `prevents_overlap` flag is off. -/
def nonBlockingDb : List Appointment :=
  [{ pk := some 3, date := 5, start_time := 840, end_time := some 900,
     providers := [7], prevents_overlap := false, price := 70,
     auto_price := false, auto_end_time := false }]

/-- A candidate form for provider 7 on date 5 over `[870, 890)`, validated
against `nonBlockingDb`. -/
def exampleOverlapForm : FormState where
  date := 5
  start_time := 870
  end_time := some 890
  price := 70
  auto_price := false
  auto_end_time := false
  is_blocked := false
  prevents_overlap := true
  providers := [7]
  activities := none
  instance_pk := none
  db := nonBlockingDb
  errors := []

/-- A fully valid form except that its provider list names provider 1 twice
(a duplicate (appointment, provider) pair, structurally invalid per the
membership-integrity rule). -/
def exampleDupProvidersForm : FormState where
  date := 5
  start_time := 840
  end_time := some 900
  price := 70
  auto_price := false
  auto_end_time := false
  is_blocked := false
  prevents_overlap := true
  providers := [1, 1]
  activities := some []
  instance_pk := none
  db := []
  errors := []

/-- A form whose times violate cohesion (start 15:00, end 14:00) and which is
otherwise error-free. -/
def exampleBadTimeForm : FormState where
  date := 5
  start_time := 900
  end_time := some 840
  price := 70
  auto_price := false
  auto_end_time := false
  is_blocked := false
  prevents_overlap := true
  providers := []
  activities := none
  instance_pk := none
  db := []
  errors := []

/-! ## Helper lemmas -/

/-- A row passes the two-argument conflict filter exactly when it is on the
candidate's date, its interval overlaps the candidate's half-open interval,
it is linked to the queried provider, and it is not the candidate itself. -/
lemma conflictsRowFilter_iff (cand : Appointment) (ce p : Nat) (e : Appointment) :
    conflictsRowFilter cand ce p e = true ↔
      (e.date = cand.date ∧ e.start_time < ce ∧
        (∃ ee, e.end_time = some ee ∧ cand.start_time < ee) ∧
        p ∈ e.providers ∧ e.pk ≠ cand.pk) := by
  cases he : e.end_time <;>
    simp [conflictsRowFilter, he, List.contains, List.elem_iff, and_assoc]

/-- The two-argument conflict check reports a conflict exactly when some row
of the table passes its filter. -/
lemma validate_conflicts_isSome_iff (db : List Appointment) (cand : Appointment)
    (p ce : Nat) (hce : cand.end_time = some ce) :
    (validate_appointments_conflicts db cand p).isSome ↔
      ∃ e ∈ db, conflictsRowFilter cand ce p e = true := by
  simp only [validate_appointments_conflicts, hce]
  constructor
  · intro h
    cases hfil : db.filter (conflictsRowFilter cand ce p) with
    | nil => rw [hfil] at h; simp at h
    | cons c t =>
      have hmem : c ∈ db.filter (conflictsRowFilter cand ce p) := by
        rw [hfil]; exact List.mem_cons_self c t
      have h2 := List.mem_filter.mp hmem
      exact ⟨c, h2.1, h2.2⟩
  · rintro ⟨e, he, hpred⟩
    have hmem : e ∈ db.filter (conflictsRowFilter cand ce p) :=
      List.mem_filter.mpr ⟨he, hpred⟩
    cases hfil : db.filter (conflictsRowFilter cand ce p) with
    | nil => rw [hfil] at hmem; exact absurd hmem (List.not_mem_nil e)
    | cons c t => simp

/-- Resolving the activity links reads only the relation rows and the
activities table, never the appointment row. -/
lemma linkedActivities_mk (ap : Appointment) (acts : List Activity) (ls : List Nat) :
    linkedActivities ⟨ap, acts, ls⟩ = ls.filterMap (fun i => acts.find? (fun a => a.id == i)) :=
  rfl

/-- With `auto_price` on, `set_price` is exactly the price overwrite. -/
lemma set_price_eq (w : ApptWorld) (hap : w.appointment.auto_price = true) :
    set_price w = { w with appointment := { w.appointment with
      price := ((linkedActivities w).map Activity.price).sum } } := by
  unfold set_price; rw [hap]; rfl

/-- With `auto_end_time` on, `set_end_time` is exactly the end-time
overwrite. -/
lemma set_end_time_eq (w : ApptWorld) (hae : w.appointment.auto_end_time = true) :
    set_end_time w = { w with appointment := { w.appointment with
      end_time := some ((w.appointment.start_time +
        ((linkedActivities w).map Activity.duration_time).sum) % dayMinutes) } } := by
  unfold set_end_time; rw [hae]; rfl

/-- `firstProviderConflict` reports something exactly when some provider in
the list has a conflict. -/
lemma firstProviderConflict_isSome_iff (db : List Appointment) (i : Appointment) :
    ∀ l : List Nat, (firstProviderConflict db i l).isSome ↔
      ∃ p ∈ l, (validate_appointments_conflicts db i p).isSome := by
  intro l
  induction l with
  | nil => simp [firstProviderConflict]
  | cons p rest ih =>
    cases h : validate_appointments_conflicts db i p with
    | some m =>
      simp only [firstProviderConflict, h, Option.isSome_some, true_iff]
      exact ⟨p, List.mem_cons_self p rest, by simp [h]⟩
    | none =>
      simp only [firstProviderConflict, h]
      rw [ih]
      constructor
      · rintro ⟨q, hq, hval⟩
        exact ⟨q, List.mem_cons_of_mem p hq, hval⟩
      · rintro ⟨q, hq, hval⟩
        rcases List.mem_cons.mp hq with hq1 | hq2
        · subst hq1; rw [h] at hval; simp at hval
        · exact ⟨q, hq2, hval⟩

/-! ## C1 -/

/-- C1: conflict detection uses half-open interval semantics.  In general,
against a committed appointment for the same provider and date, a conflict is
reported exactly when `committed.start < candidate.end` and
`candidate.start < committed.end`; concretely, against committed
`[14:00,15:00)` the candidates `[13:00,14:00)` and `[15:00,16:00)` are
accepted while `[14:30,14:50)` and `[14:00,15:00)` are rejected. -/
theorem conflict_detection_half_open :
    (∀ (cand com : Appointment) (p ce me : Nat),
        cand.date = com.date → p ∈ com.providers → com.pk ≠ cand.pk →
        cand.end_time = some ce → com.end_time = some me →
        ((validate_appointments_conflicts [com] cand p).isSome ↔
          (com.start_time < ce ∧ cand.start_time < me)))
    ∧ validate_appointments_conflicts [committedAppt] (candidate 780 840) 7 = none
    ∧ validate_appointments_conflicts [committedAppt] (candidate 900 960) 7 = none
    ∧ (validate_appointments_conflicts [committedAppt] (candidate 870 890) 7).isSome = true
    ∧ (validate_appointments_conflicts [committedAppt] (candidate 840 900) 7).isSome = true := by
  refine ⟨?_, by decide, by decide, by decide, by decide⟩
  intro cand com p ce me hdate hp hpk hce hme
  rw [validate_conflicts_isSome_iff [com] cand p ce hce]
  constructor
  · rintro ⟨e, he, hpred⟩
    have he' : e = com := by simpa using he
    subst he'
    rw [conflictsRowFilter_iff] at hpred
    obtain ⟨-, h1, ⟨ee, hee, h2⟩, -, -⟩ := hpred
    rw [hme] at hee
    cases hee
    exact ⟨h1, h2⟩
  · rintro ⟨h1, h2⟩
    refine ⟨com, by simp, (conflictsRowFilter_iff cand ce p com).mpr ?_⟩
    exact ⟨hdate.symm, h1, ⟨me, hme, h2⟩, hp, hpk⟩

/-- Witness for C1: the general half-open criterion applied to the concrete
fully-inside candidate `[14:30, 14:50)`. -/
theorem conflict_detection_half_open_witness :
    (validate_appointments_conflicts [committedAppt] (candidate 870 890) 7).isSome ↔
      (840 < 890 ∧ 870 < 900) :=
  conflict_detection_half_open.1 (candidate 870 890) committedAppt 7 890 900
    rfl (by decide) (by decide) rfl rfl

/-! ## C2 -/

/-- C2: the rows the form-path conflict check considers are exactly the
stored appointments with `prevents_overlap = true`, on the candidate's date,
overlapping its half-open interval, linked to the queried provider and
distinct from the candidate's own id; consequently, when every stored
appointment has `prevents_overlap = false`, the conflict check reports
nothing. -/
theorem conflict_scope_prevents_overlap (f : FormState) (ce p : Nat) (b : Appointment) :
    (b ∈ qsConsidered (conflict_get_queryset f ce) f p ↔
      (b ∈ f.db ∧ b.prevents_overlap = true ∧ b.date = f.date ∧ b.start_time < ce ∧
        (∃ be, b.end_time = some be ∧ f.start_time < be) ∧
        p ∈ b.providers ∧ b.pk ≠ f.instance_pk))
    ∧ ((∀ c ∈ f.db, c.prevents_overlap = false) →
        validate_appointments_conflicts_qs (conflict_get_queryset f ce) f ce p = none) := by
  constructor
  · unfold qsConsidered conflict_get_queryset
    rw [List.mem_filter, List.mem_filter]
    cases hbe : b.end_time <;>
      simp [hbe, List.contains, List.elem_iff, and_assoc]
  · intro hall
    have hinner : conflict_get_queryset f ce = [] := by
      unfold conflict_get_queryset
      rw [List.filter_eq_nil_iff]
      intro c hc
      simp [hall c hc]
    unfold validate_appointments_conflicts_qs qsConsidered
    rw [hinner]
    rfl

/-- Witness for C2: against the table whose only (overlapping, same
provider, same date) appointment has `prevents_overlap = false`, the
candidate `[870, 890)` draws no conflict. -/
theorem conflict_scope_prevents_overlap_witness :
    validate_appointments_conflicts_qs
      (conflict_get_queryset exampleOverlapForm 890) exampleOverlapForm 890 7 = none :=
  (conflict_scope_prevents_overlap exampleOverlapForm 890 7 committedAppt).2 (by decide)

/-! ## C3 -/

/-- C3 counterexample: a candidate whose start equals its (non-null) end time
satisfies `startTime >= endTime`, yet `validate_time_cohesion` reports no
violation — the source condition is the strict `start_time > end_time`. -/
theorem time_cohesion_equality_accepted_cex :
    840 ≥ 840 ∧ validate_time_cohesion 840 (some 840) = none :=
  ⟨le_refl 840, rfl⟩

/-- C3 (amended): for a non-null end time the time-cohesion check rejects iff
`startTime > endTime` strictly (equality is accepted), and a null end time
never triggers the rejection. -/
theorem time_cohesion_strict_iff :
    ∀ (s e : Nat), ((validate_time_cohesion s (some e)).isSome ↔ e < s)
      ∧ validate_time_cohesion s none = none := by
  intro s e
  refine ⟨?_, rfl⟩
  by_cases h : e < s <;> simp [validate_time_cohesion, h]

/-! ## C4 -/

/-- C4 counterexample: the pipeline contains no per-relation structural
validity step — run on a form proposing the same provider twice (structurally
invalid, which the claimed step 5 would reject before conflict detection), it
finishes with no violation at all. -/
theorem pipeline_no_structural_step_cex :
    exampleDupProvidersForm.providers = [1, 1] ∧
    (pipeline_run exampleDupProvidersForm).errors = [] :=
  ⟨rfl, rfl⟩

/-- C4 (amended): the pipeline runs exactly the five steps time cohesion,
blocked cohesion, auto end time, auto price, conflict detection, in that
order, and stops at the first step that leaves the error list non-empty:
whenever the steps so far produced no violation and the next step does, the
remaining steps are never executed.  Per-relation structural validity is not
a pipeline step (the admin form performs it separately in its `clean`). -/
theorem pipeline_order_fail_fast :
    (∀ f : FormState, pipeline_run f =
      runSteps [validate_time, validate_blocked, auto_end_time_step, auto_price_step,
        validate_conflicts] f)
    ∧ (∀ (l1 : List (FormState → FormState)) (s : FormState → FormState)
        (l2 : List (FormState → FormState)) (f : FormState),
        (runSteps l1 f).errors = [] → (s (runSteps l1 f)).errors ≠ [] →
        runSteps (l1 ++ s :: l2) f = s (runSteps l1 f)) := by
  constructor
  · intro f; rfl
  · intro l1
    induction l1 with
    | nil =>
      intro s l2 f h0 hs
      simp only [runSteps] at h0 hs
      simp only [List.nil_append, runSteps]
      rw [if_neg hs]
    | cons t l1' ih =>
      intro s l2 f h0 hs
      simp only [List.cons_append, runSteps]
      by_cases h1 : (t f).errors = []
      · have hred : runSteps (t :: l1') f = runSteps l1' (t f) := by
          simp only [runSteps]; rw [if_pos h1]
        rw [hred] at h0 hs
        rw [if_pos h1]
        rw [if_pos h1]
        exact ih s l2 (t f) h0 hs
      · have hred : runSteps (t :: l1') f = t f := by
          simp only [runSteps]; rw [if_neg h1]
        rw [hred] at h0
        exact absurd h0 h1

/-- Witness for C4: on the cohesion-violating form, the run of the step list
`[validate_time, validate_blocked]` stops right after `validate_time`. -/
theorem pipeline_order_fail_fast_witness :
    runSteps [validate_time, validate_blocked] exampleBadTimeForm =
      validate_time exampleBadTimeForm :=
  pipeline_order_fail_fast.2 [] validate_time [validate_blocked] exampleBadTimeForm
    rfl (by decide)

/-! ## C5 -/

/-- C5: with `auto_price` and `auto_end_time` on and at least one linked
activity, the recomputation run by `AppointmentActivities.save` sets
`price` to the sum of the linked activities' prices and `end_time` to
`start_time` plus the sum of their durations (no midnight crossing). -/
theorem auto_fields_sum_computation (w : ApptWorld)
    (hap : w.appointment.auto_price = true)
    (hae : w.appointment.auto_end_time = true)
    (hne : linkedActivities w ≠ [])
    (hlt : w.appointment.start_time +
      ((linkedActivities w).map Activity.duration_time).sum < dayMinutes) :
    (set_end_time (set_price w)).appointment.price =
        ((linkedActivities w).map Activity.price).sum ∧
    (set_end_time (set_price w)).appointment.end_time =
        some (w.appointment.start_time +
          ((linkedActivities w).map Activity.duration_time).sum) := by
  have hsp := set_price_eq w hap
  have hae2 : (set_price w).appointment.auto_end_time = true := by
    rw [hsp]; exact hae
  have hla : linkedActivities (set_price w) = linkedActivities w := by
    rw [hsp]; rfl
  have hst : (set_price w).appointment.start_time = w.appointment.start_time := by
    rw [hsp]
  clear hne
  constructor
  · rw [set_end_time_eq _ hae2, hsp]
  · rw [set_end_time_eq _ hae2, hla, hst, Nat.mod_eq_of_lt hlt]

/-- Witness for C5: the single activity priced 100 with duration 90 minutes
and start time 14:00 yields price 100 and end time 15:30. -/
theorem auto_fields_sum_computation_witness :
    (set_end_time (set_price exampleLinkedWorld)).appointment.price = 100 ∧
    (set_end_time (set_price exampleLinkedWorld)).appointment.end_time = some 930 := by
  have h := auto_fields_sum_computation exampleLinkedWorld rfl rfl (by decide) (by decide)
  exact ⟨h.1.trans (by decide), h.2.trans (by decide)⟩

/-! ## C6 -/

/-- C6: after the activity link is saved (computing the derived fields),
re-saving the activity itself leaves the appointment row untouched — price
and end time stay frozen at the values computed from the activity as it was
when the link was saved. -/
theorem auto_fields_frozen_on_activity_update (w : ApptWorld) (a a2 : Activity) (actId : Nat)
    (hap : w.appointment.auto_price = true)
    (hae : w.appointment.auto_end_time = true)
    (hacts : w.activities = [a]) (hid : a.id = actId) (hlinks : w.links = []) :
    (activitySave (appointmentActivitiesSave w actId) a2).appointment =
        (appointmentActivitiesSave w actId).appointment ∧
    (activitySave (appointmentActivitiesSave w actId) a2).appointment.price = a.price ∧
    (activitySave (appointmentActivitiesSave w actId) a2).appointment.end_time =
        some ((w.appointment.start_time + a.duration_time) % dayMinutes) := by
  subst hid
  have hla : linkedActivities { w with links := w.links ++ [a.id] } = [a] := by
    rw [linkedActivities_mk, hacts, hlinks]
    simp [List.find?]
  have hap2 : ({ w with links := w.links ++ [a.id] } : ApptWorld).appointment.auto_price = true := hap
  have hsp := set_price_eq { w with links := w.links ++ [a.id] } hap2
  have hae2 : (set_price { w with links := w.links ++ [a.id] }).appointment.auto_end_time = true := by
    rw [hsp]; exact hae
  have hla2 : linkedActivities (set_price { w with links := w.links ++ [a.id] }) = [a] := by
    rw [hsp]; exact hla
  have hst2 : (set_price { w with links := w.links ++ [a.id] }).appointment.start_time =
      w.appointment.start_time := by
    rw [hsp]
  have hframe : ∀ (v : ApptWorld) (b : Activity), (activitySave v b).appointment = v.appointment :=
    fun v b => rfl
  refine ⟨hframe _ _, ?_, ?_⟩
  · rw [hframe]
    show (set_end_time (set_price { w with links := w.links ++ [a.id] })).appointment.price = a.price
    rw [set_end_time_eq _ hae2, hsp, hla]
    simp
  · rw [hframe]
    show (set_end_time (set_price { w with links := w.links ++ [a.id] })).appointment.end_time =
      some ((w.appointment.start_time + a.duration_time) % dayMinutes)
    rw [set_end_time_eq _ hae2, hla2, hst2]
    simp

/-- Witness for C6: the appointment computed price 100 and end time 15:30
from the linked activity; updating that activity's price to 70 and re-saving
the activity leaves them at 100 and 15:30. -/
theorem auto_fields_frozen_on_activity_update_witness :
    (activitySave (appointmentActivitiesSave exampleFreezeWorld 1) ⟨1, 70, 90⟩).appointment.price = 100 ∧
    (activitySave (appointmentActivitiesSave exampleFreezeWorld 1) ⟨1, 70, 90⟩).appointment.end_time = some 930 := by
  have h := auto_fields_frozen_on_activity_update exampleFreezeWorld ⟨1, 100, 90⟩ ⟨1, 70, 90⟩ 1
    rfl rfl rfl rfl rfl
  exact ⟨h.2.1.trans (by decide), h.2.2.trans (by decide)⟩

/-! ## C7 -/

/-- C7: a blocked appointment that does not prevent overlaps is rejected with
exactly the stated message, attached to `is_blocked`; a blocked appointment
that prevents overlaps is never rejected by this rule. -/
theorem blocked_cohesion_rule (f : FormState) (hb : f.is_blocked = true) :
    (f.prevents_overlap = false →
      validate_blocked f = addError f "is_blocked"
        "An appointment cannot be marked as blocked while allowing overlaps. Set 'prevents_overlap=True' when 'is_blocked=True'.")
    ∧ (f.prevents_overlap = true → validate_blocked f = f) := by
  constructor
  · intro hp
    simp [validate_blocked, validate_blocked_cohesion, hb, hp]
  · intro hp
    simp [validate_blocked, validate_blocked_cohesion, hb, hp]

/-- Witness for C7: the concrete blocked-but-overlappable form is rejected
with the exact message. -/
theorem blocked_cohesion_rule_witness :
    validate_blocked exampleBlockedForm = addError exampleBlockedForm "is_blocked"
      "An appointment cannot be marked as blocked while allowing overlaps. Set 'prevents_overlap=True' when 'is_blocked=True'." :=
  (blocked_cohesion_rule exampleBlockedForm rfl).1 rfl

/-! ## C8 -/

/-- C8 evaluation at the failing input: provider 7 is already linked to
appointment 1 (its relation row is present), yet saving a second identical
`AppointmentProvider` row succeeds — `full_clean` only runs the conflict
check, which excludes the appointment itself by primary key, and the model
declares no uniqueness over (appointment, provider), so no
"already exists." rejection can arise. -/
theorem duplicate_provider_row_accepted :
    appointmentProviderSave [committedAppt] [(some 1, 7)] committedAppt 7 =
      Except.ok [(some 1, 7), (some 1, 7)] := by
  rfl

/-! ## C9 -/

/-- C9: with `auto_price` on but zero activities linked, saving the
appointment leaves the caller-supplied price standing, and a caller-supplied
(non-null) end time likewise stands; `Appointment.save` performs no derived
field computation — that only runs from `AppointmentActivities.save`, of
which none exist when no activity is linked. -/
theorem no_activities_price_end_time_preserved (db : List Appointment) (w : ApptWorld)
    (i2 : Appointment)
    (hlinks : w.links = [])
    (hap : w.appointment.auto_price = true)
    (hae : w.appointment.auto_end_time = true)
    (hok : appointmentSave db w.appointment = Except.ok i2) :
    i2.price = w.appointment.price ∧
    ∀ e, w.appointment.end_time = some e → i2.end_time = some e := by
  unfold appointmentSave at hok
  cases hcl : appointmentClean db w.appointment with
  | some m => rw [hcl] at hok; simp at hok
  | none =>
    rw [hcl] at hok
    simp only [Except.ok.injEq] at hok
    subst hok
    constructor
    · unfold fixEndTime; split <;> rfl
    · intro e he
      simp [fixEndTime, he]

/-- Witness for C9: the zero-activities appointment with caller price 70 and
end time 15:00 saves with both values intact. -/
theorem no_activities_price_end_time_preserved_witness :
    exampleNoActWorld.appointment.price = 70 ∧
    exampleNoActWorld.appointment.end_time = some 900 := by
  have h := no_activities_price_end_time_preserved [] exampleNoActWorld
    exampleNoActWorld.appointment rfl rfl rfl rfl
  exact ⟨h.1.trans (by decide), h.2 900 rfl⟩

/-! ## C10 -/

/-- C10: `Appointment.clean` on an instance with no primary key is
independent of the stored appointments (no conflict detection at all); the
conflict check does run when a provider relation row is saved
(`AppointmentProvider.save` errs exactly when the conflict query reports),
and on re-save of a persisted instance (`clean` errs exactly when some linked
provider has a conflict, once time cohesion passes). -/
theorem clean_skips_conflicts_without_pk :
    (∀ (db db2 : List Appointment) (i : Appointment), i.pk = none →
        appointmentClean db i = appointmentClean db2 i)
    ∧ (∀ (db : List Appointment) (rows : List (Option Nat × Nat)) (a : Appointment) (p : Nat),
        (∃ m, appointmentProviderSave db rows a p = Except.error m) ↔
          (validate_appointments_conflicts db a p).isSome)
    ∧ (∀ (db : List Appointment) (i : Appointment) (k e : Nat),
        i.pk = some k → i.end_time = some e →
        validate_time_cohesion i.start_time i.end_time = none →
        ((appointmentClean db i).isSome ↔
          ∃ p ∈ i.providers, (validate_appointments_conflicts db i p).isSome)) := by
  refine ⟨?_, ?_, ?_⟩
  · intro db db2 i hpk
    have hfixpk : (fixEndTime i).pk = i.pk := by
      unfold fixEndTime; split <;> rfl
    have hisnone : (fixEndTime i).pk.isNone = true := by
      rw [hfixpk, hpk]; rfl
    cases hc : validate_time_cohesion (fixEndTime i).start_time (fixEndTime i).end_time with
    | some m => simp [appointmentClean, hc]
    | none => simp [appointmentClean, hc, hisnone]
  · intro db rows a p
    cases h : validate_appointments_conflicts db a p with
    | some m => simp [appointmentProviderSave, h]
    | none => simp [appointmentProviderSave, h]
  · intro db i k e hpk hend hcoh
    have hfix : fixEndTime i = i := by
      unfold fixEndTime; rw [hend]; rfl
    have hclean : appointmentClean db i = firstProviderConflict db i i.providers := by
      unfold appointmentClean
      rw [hfix]
      simp [hcoh, hpk]
    rw [hclean]
    exact firstProviderConflict_isSome_iff db i i.providers

/-- Witness for C10: a pk-less candidate cleans identically against a
conflicting table and the empty table, and the persisted appointment with
primary key 2 cleans to an error exactly when one of its providers
conflicts. -/
theorem clean_skips_conflicts_without_pk_witness :
    appointmentClean [committedAppt] (candidate 840 900) = appointmentClean [] (candidate 840 900) ∧
    ((appointmentClean [committedAppt] persistedCand).isSome ↔
      ∃ p ∈ persistedCand.providers,
        (validate_appointments_conflicts [committedAppt] persistedCand p).isSome) := by
  refine ⟨clean_skips_conflicts_without_pk.1 [committedAppt] [] (candidate 840 900) rfl, ?_⟩
  exact clean_skips_conflicts_without_pk.2.2 [committedAppt] persistedCand 2 900 rfl rfl rfl
